import Mathlib

/-
Formal model of the ciel-et-terre floating-solar scraping script
(src/ciel_et_terre_scraping.py, with the near-duplicate copy
src/ciel_et_terre/ciel_et_terre_scraping.py).

The script's field extraction is driven by Python `re` patterns.  We embed
the fragment of Python regular expressions the script actually uses as a
small backtracking engine over `List Char`:
  - character classes (\d, \w, \S, negated sets, and the any-char dot,
    which in Python does not match a newline),
  - greedy `+` on a character class, greedy `?`, `{0,1}`, alternation,
    concatenation and numbered capture groups.
Backtracking priority follows Python: alternatives left to right, greedy
quantifiers longest first, and the search scans start positions left to
right.  `matchRE` returns the full list of anchored outcomes in priority
order; Python's engine returns the first of them.
-/

def isPySpace (c : Char) : Bool :=
  c = ' ' || c = '\t' || c = '\n' || c = '\r' || c = Char.ofNat 11 || c = Char.ofNat 12

inductive CharCls where
  | digit
  | word
  | nonspace
  | anyNoNL
  | notIn (cs : List Char)
deriving DecidableEq

def CharCls.test : CharCls → Char → Bool
  | .digit, c => c.isDigit
  | .word, c => c.isAlphanum || c = '_'
  | .nonspace, c => !(isPySpace c)
  | .anyNoNL, c => !(c = '\n')
  | .notIn cs, c => !(cs.contains c)

inductive RE where
  | eps
  | lit (c : Char)
  | cls (k : CharCls)
  | cat (a b : RE)
  | alt (a b : RE)
  | opt (a : RE)
  | plus (k : CharCls)
  | group (i : Nat) (a : RE)
deriving DecidableEq

/-- Group captures recorded during a match; the most recent capture of a
group index is first, matching Python's "last repetition wins" rule. -/
abbrev Groups := List (Nat × List Char)

/-- Candidate consumption lengths for a greedy `+` over a class: longest
first, down to one character. -/
def lensDesc : Nat → List Nat
  | 0 => []
  | n + 1 => (n + 1) :: lensDesc n

/-- All anchored outcomes (remaining input, captures) of a pattern, in
Python's backtracking priority order. -/
def matchRE : RE → List Char → Groups → List (List Char × Groups)
  | .eps, s, g => [(s, g)]
  | .lit _, [], _ => []
  | .lit c, d :: r, g => if d = c then [(r, g)] else []
  | .cls _, [], _ => []
  | .cls k, d :: r, g => if k.test d then [(r, g)] else []
  | .cat a b, s, g => (matchRE a s g).flatMap (fun p => matchRE b p.1 p.2)
  | .alt a b, s, g => matchRE a s g ++ matchRE b s g
  | .opt a, s, g => matchRE a s g ++ [(s, g)]
  | .plus k, s, g => (lensDesc (s.takeWhile k.test).length).map (fun n => (s.drop n, g))
  | .group i a, s, g =>
      (matchRE a s g).map (fun p => (p.1, (i, s.take (s.length - p.1.length)) :: p.2))

/-- Literal string as a pattern. -/
def litStr : List Char → RE
  | [] => .eps
  | c :: r => .cat (.lit c) (litStr r)

def litS (s : String) : RE := litStr s.data

/-- First anchored match at the current position, if any. -/
def anchorRE (re : RE) (s : List Char) : Option Groups :=
  ((matchRE re s []).head?).map (fun p => p.2)

/-- Python `re.search`: try successive start positions, leftmost first. -/
def reSearch (re : RE) : List Char → Option Groups
  | [] => anchorRE re []
  | c :: r =>
    match anchorRE re (c :: r) with
    | some g => some g
    | none => reSearch re r

/- The patterns used by the script, one per extracted field. -/

def kwpPat : RE := .cat (.group 1 (.plus .digit)) (litS " kWp")

def locPat : RE :=
  .cat (litS "installed on ")
    (.cat (.plus (.notIn [',']))
      (.cat (.lit ',')
        (.cat (.opt (litS " located in "))
          (.cat (.group 1 (.plus (.notIn ['\n'])))
            (.cat (.opt (.lit '.')) (.lit '\n'))))))

def wbtPat : RE :=
  .cat (litS "installed on ") (.cat (.group 1 (.plus (.notIn [',', '.']))) (.lit ','))

def panelNumPat : RE := .cat (.group 1 (.plus .digit)) (litS " panels")

def panelTypePat : RE :=
  .cat (.lit '(')
    (.group 1 (.cat (.plus (.notIn [')'])) (.alt (litS "modules") (litS "panels"))))

def coversPctPat : RE :=
  .cat (litS "covers ")
    (.cat (.opt (litS "about "))
      (.cat (.group 1 (.plus (.notIn ['%']))) (.cat (.opt (.lit ' ')) (.lit '%'))))

def areaPat : RE :=
  .cat (.lit '(')
    (.cat (.group 1 (.plus .nonspace))
      (.cat (litS " out of ")
        (.cat (.group 2 (.plus .nonspace)) (.cat (litS " ha)") (.cls .anyNoNL)))))

def maxDepthPat : RE :=
  .cat (litS "a maximum depth of ") (.cat (.group 1 (.plus .nonspace)) (litS " m"))

def levelVarPat : RE :=
  .cat (litS "variation of ") (.cat (.group 1 (.plus .nonspace)) (litS " m"))

def datePat : RE :=
  .cat (litS "effective in ")
    (.group 1 (.cat (.opt (.cat (.plus .word) (.lit ' '))) (.plus .digit)))

def durPat : RE :=
  .cat (litS "construction lasted ")
    (.group 1 (.cat (.plus .digit)
      (.cat (.lit ' ')
        (.group 2 (.alt (litS "days")
          (.alt (.cat (litS "week") (.opt (.lit 's'))) (litS "months")))))))

/-- The script's `search` helper: run the pattern over the text and return
capture group 1, with both the no-match case and the missing-group case
(Python `IndexError`, caught in the helper) collapsing to `none`. -/
def pySearch (re : RE) (t : String) : Option String :=
  (reSearch re t.data).bind (fun g => (g.lookup 1).map (fun l => String.mk l))

inductive FieldKey where
  | kWp
  | location
  | waterBodyType
  | panelNumber
  | panelType
  | coversPct
  | coversPanels
  | coversTotal
  | maxDepth
  | levelVariation
  | constructionDuration
deriving DecidableEq

def fieldPat : FieldKey → RE
  | .kWp => kwpPat
  | .location => locPat
  | .waterBodyType => wbtPat
  | .panelNumber => panelNumPat
  | .panelType => panelTypePat
  | .coversPct => coversPctPat
  | .coversPanels => areaPat
  | .coversTotal => areaPat
  | .maxDepth => maxDepthPat
  | .levelVariation => levelVarPat
  | .constructionDuration => durPat

/-- The two-group area extraction in `parse_system`: one search of
`\((\S+) out of (\S+) ha\).`; on success the two groups are read (the
`IndexError` guards in the source can only yield `None`), on failure both
fields are `None`. -/
def coversPair (t : String) : Option String × Option String :=
  match reSearch areaPat t.data with
  | none => (none, none)
  | some g => ((g.lookup 1).map (fun l => String.mk l), (g.lookup 2).map (fun l => String.mk l))

/-- Per-field extraction as performed by `parse_basic`, `parse_system`,
`parse_advanced` and the `construction_duration` search in `parse_date`. -/
def fieldExtract : FieldKey → String → Option String
  | .coversPanels, t => (coversPair t).1
  | .coversTotal, t => (coversPair t).2
  | f, t => pySearch (fieldPat f) t

/-
Date parsing.  `parse_date` feeds the captured phrase to
`datetime.strptime` with format '%B %Y' and, on `ValueError`, retries with
'%Y'.  We model the two formats: '%B' is a full English month name,
case-insensitively; a whitespace in the format matches one or more
whitespace characters; '%Y' is exactly four digits; any unconverted
trailing data makes strptime fail.  The resulting datetime is modelled as
a (year, month, day) triple; strptime defaults missing components to
month 1 and day 1.
-/

def digitsToNat (cs : List Char) : Nat :=
  cs.foldl (fun a c => a * 10 + (c.toNat - 48)) 0

def monthNames : List String :=
  ["january", "february", "march", "april", "may", "june",
   "july", "august", "september", "october", "november", "december"]

def monthIdx : List String → String → Nat → Option Nat
  | [], _, _ => none
  | n :: r, s, i => if s = n then some i else monthIdx r s (i + 1)

/-- Model of `datetime.strptime(s, '%B %Y')`, returning (year, month). -/
def strptimeBY (s : String) : Option (Nat × Nat) :=
  let cs := s.data
  let name := cs.takeWhile Char.isAlpha
  let rest := cs.dropWhile Char.isAlpha
  match monthIdx monthNames (String.mk (name.map Char.toLower)) 1 with
  | none => none
  | some m =>
    let sp := rest.takeWhile isPySpace
    let digits := rest.dropWhile isPySpace
    if 1 ≤ sp.length ∧ digits.length = 4 ∧ digits.all Char.isDigit then
      some (digitsToNat digits, m)
    else none

/-- Model of `datetime.strptime(s, '%Y')`, returning the year. -/
def strptimeY (s : String) : Option Nat :=
  if s.data.length = 4 ∧ s.data.all Char.isDigit then some (digitsToNat s.data) else none

/-- The `parse_date` routine.  The date search result is passed to
strptime; a missing match makes `strptime(None, ...)` raise an uncaught
`TypeError`, and a capture that fits neither format raises an uncaught
`ValueError` from the fallback — both modelled as `Except.error`.  On
success the routine also records the (search-based, non-fatal)
construction-duration capture. -/
def parseDateField (t : String) : Except Unit ((Nat × Nat × Nat) × Option String) :=
  match pySearch datePat t with
  | none => .error ()
  | some s =>
    match strptimeBY s with
    | some (y, m) => .ok ((y, m, 1), fieldExtract .constructionDuration t)
    | none =>
      match strptimeY s with
      | some y => .ok ((y, 1, 1), fieldExtract .constructionDuration t)
      | none => .error ()

/-
Page parsing.  `parse_page` collects the paragraph text nodes of the
cached page, discards empty ones, replaces non-breaking spaces by plain
spaces, strips each paragraph, joins with newlines, and only if the joined
text is non-empty runs the four field parsers (of which only `parse_date`
can fail).  We model the routine from the list of raw paragraph strings.
-/

structure Row where
  kWp : Option String
  location : Option String
  water_body_type : Option String
  panel_number : Option String
  panel_type : Option String
  covers_pct : Option String
  covers_panels : Option String
  covers_total : Option String
  max_depth : Option String
  level_variation : Option String
  interconnection_date : Option (Nat × Nat × Nat)
  construction_duration : Option String
deriving DecidableEq

def emptyRow : Row :=
  { kWp := none, location := none, water_body_type := none, panel_number := none,
    panel_type := none, covers_pct := none, covers_panels := none, covers_total := none,
    max_depth := none, level_variation := none, interconnection_date := none,
    construction_duration := none }

/-- Python `str.strip()` on the characters of a paragraph. -/
def stripWS (cs : List Char) : List Char :=
  ((cs.dropWhile isPySpace).reverse.dropWhile isPySpace).reverse

/-- One paragraph as cleaned by `parse_page`: non-breaking spaces
(U+00A0) replaced by spaces, then stripped. -/
def cleanPara (p : String) : String :=
  String.mk (stripWS (p.data.map (fun c => if c = Char.ofNat 160 then ' ' else c)))

def pageText (ps : List String) : String :=
  String.intercalate "\n" ((ps.filter (fun p => !(p = ""))).map cleanPara)

def parsePage (ps : List String) : Except Unit Row :=
  let text := pageText ps
  if text = "" then .ok emptyRow
  else
    match parseDateField text with
    | .error e => .error e
    | .ok (d, dur) =>
      .ok { kWp := fieldExtract .kWp text,
            location := fieldExtract .location text,
            water_body_type := fieldExtract .waterBodyType text,
            panel_number := fieldExtract .panelNumber text,
            panel_type := fieldExtract .panelType text,
            covers_pct := fieldExtract .coversPct text,
            covers_panels := (coversPair text).1,
            covers_total := (coversPair text).2,
            max_depth := fieldExtract .maxDepth text,
            level_variation := fieldExtract .levelVariation text,
            interconnection_date := some d,
            construction_duration := dur }

/-
Dataset Builder coercions.  `make_decimal = lambda s: float(s.replace(',',
'.')) if s else None` (runnable copy).  Python's `float` on a string
strips surrounding whitespace and accepts an optional sign, a decimal
mantissa and an optional exponent; we model the finite decimal forms
exactly, as a scaled integer: the parse result `(n, k)` denotes the value
n / 10^k (the non-finite literals inf/nan are outside the model).  A
string `float` cannot parse raises `ValueError`, modelled as
`Except.error`; an absent (`None`) or empty value is passed through as
`None` by the `if s` guard.
-/

def sgnSplit (cs : List Char) : Int × List Char :=
  match cs with
  | '+' :: r => (1, r)
  | '-' :: r => (-1, r)
  | _ => (1, cs)

def parseExpPart (cs : List Char) (n : Int) (k : Nat) : Option (Int × Nat) :=
  match cs with
  | [] => some (n, k)
  | e :: r =>
    if e = 'e' ∨ e = 'E' then
      let (sg, r') := sgnSplit r
      let ds := r'.takeWhile Char.isDigit
      if r'.dropWhile Char.isDigit = [] ∧ 1 ≤ ds.length then
        let ex := digitsToNat ds
        some (if sg = 1 then (n * ((10 : Int) ^ ex), k) else (n, k + ex))
      else none
    else none

def parseMantissa (cs : List Char) : Option (Int × Nat) :=
  let ip := cs.takeWhile Char.isDigit
  let r1 := cs.dropWhile Char.isDigit
  match r1 with
  | '.' :: r2 =>
    let fp := r2.takeWhile Char.isDigit
    let r3 := r2.dropWhile Char.isDigit
    if ip.length = 0 ∧ fp.length = 0 then none
    else parseExpPart r3 ((digitsToNat ip * 10 ^ fp.length + digitsToNat fp : Nat) : Int) fp.length
  | _ => if ip.length = 0 then none else parseExpPart r1 ((digitsToNat ip : Nat) : Int) 0

/-- Model of Python `float(s)` for finite decimal literals; `some (n, k)`
denotes the exact value n / 10^k. -/
def pyFloat (s : String) : Option (Int × Nat) :=
  let cs := stripWS s.data
  let (sg, body) := sgnSplit cs
  (parseMantissa body).map (fun p => (sg * p.1, p.2))

/-- The rational value denoted by a scaled-decimal parse result. -/
def decVal (p : Int × Nat) : Rat :=
  (p.1 : Rat) / (10 : Rat) ^ p.2

/-- Model of `s.replace(',', '.')`. -/
def commaToDot (s : String) : String :=
  String.mk (s.data.map (fun c => if c = ',' then '.' else c))

/-- The runnable copy's `make_decimal`: absent or empty input is passed
through as null by the `if s` guard; otherwise the comma-normalized text
goes to `float`, whose failure is an uncaught `ValueError`. -/
def makeDecimal (v : Option String) : Except Unit (Option (Int × Nat)) :=
  match v with
  | none => .ok none
  | some s =>
    if s = "" then .ok none
    else
      match pyFloat (commaToDot s) with
      | some q => .ok (some q)
      | none => .error ()

/-- Model of Python `int(s)`: surrounding whitespace stripped, optional
sign, one or more digits. -/
def pyInt (s : String) : Option Int :=
  let cs := stripWS s.data
  let (sg, body) := sgnSplit cs
  if 1 ≤ body.length ∧ body.all Char.isDigit then some (sg * digitsToNat body) else none

/-- The runnable copy's integer coercion for both `kWp` and
`panel_number`: `lambda s: int(s)`.  An absent cell (None/NaN) makes
`int` raise an uncaught `TypeError`/`ValueError`. -/
def intCoerceNoFallback (v : Option String) : Except Unit Int :=
  match v with
  | none => .error ()
  | some s =>
    match pyInt s with
    | some n => .ok n
    | none => .error ()

/-- The package copy's `kWp` coercion:
`lambda s: int(s) if not pd.isnull(s) else 0`. -/
def kwpCoerceWithDefault (v : Option String) : Except Unit Int :=
  match v with
  | none => .ok 0
  | some s =>
    match pyInt s with
    | some n => .ok n
    | none => .error ()

/-
Cache Manager.  `get_projects` decides per project whether the network is
touched: an existing local file is reused outright; otherwise a title in
the ledger is refreshed only when `now - strptime(entry, '%Y-%m') >
timedelta(days=30)`, and a title not in the ledger is always fetched.
Datetimes enter the comparison at second granularity; we model a datetime
as seconds since the Unix epoch via the standard civil-calendar day count.
-/

/-- Days from the civil epoch 1970-01-01 (proleptic Gregorian). -/
def daysFromCivil (y m d : Int) : Int :=
  let y1 := if m ≤ 2 then y - 1 else y
  let era := (if 0 ≤ y1 then y1 else y1 - 399) / 400
  let yoe := y1 - era * 400
  let mp := if m > 2 then m - 3 else m + 9
  let doy := (153 * mp + 2) / 5 + d - 1
  let doe := yoe * 365 + yoe / 4 - yoe / 100 + doy
  era * 146097 + doe - 719468

/-- Seconds since the epoch of the midnight starting the given civil day. -/
def civilSec (y m d : Nat) : Int :=
  86400 * daysFromCivil (y : Int) (m : Int) (d : Int)

def thirtyDaysSec : Int := 30 * 86400

/-- The month field of strptime's '%m': the regex `1[0-2]|0[1-9]|[1-9]`,
alternatives tried in that order, with no input left over. -/
def parseMonth (cs : List Char) : Option Nat :=
  match cs with
  | [c] => if '1' ≤ c ∧ c ≤ '9' then some (c.toNat - 48) else none
  | [c, d] =>
    if c = '1' ∧ '0' ≤ d ∧ d ≤ '2' then some (10 + (d.toNat - 48))
    else if c = '0' ∧ '1' ≤ d ∧ d ≤ '9' then some (d.toNat - 48)
    else none
  | _ => none

/-- Model of `datetime.strptime(s, '%Y-%m')`: four digits, a literal
hyphen, a month, nothing left over; returns (year, month). -/
def parseYM (s : String) : Option (Nat × Nat) :=
  match s.data with
  | a :: b :: c :: d :: e :: rest =>
    if a.isDigit ∧ b.isDigit ∧ c.isDigit ∧ d.isDigit ∧ e = '-' then
      (parseMonth rest).map (fun m => (digitsToNat [a, b, c, d], m))
    else none
  | _ => none

inductive CacheAction where
  | reuse
  | fetchNow
  | leaveAbsent
deriving DecidableEq

/-- The per-project fetch decision of `get_projects` (lines 130-140 of the
runnable copy).  `entry` is `none` when the title is not in the ledger's
index, and `some v` when it is, `v` being the cell of the
`last_downloaded` column (`none` for a missing/NaN cell).  A NaN cell
makes `strptime` raise `TypeError` and an unparsable string makes it raise
`ValueError`, both uncaught. -/
def cacheDecision (fileExists : Bool) (entry : Option (Option String)) (now : Int) :
    Except Unit CacheAction :=
  if fileExists then .ok .reuse
  else
    match entry with
    | none => .ok .fetchNow
    | some none => .error ()
    | some (some s) =>
      match parseYM s with
      | none => .error ()
      | some (y, m) =>
        if now - civilSec y m 1 > thirtyDaysSec then .ok .fetchNow else .ok .leaveAbsent

/-
The ledger table.  The persisted `last_downloaded.csv` is indexed by
title; `download_page` assigns `now.date()` (rendered as YYYY-MM-DD) to
the column named `last_download`, while `get_projects` reads the column
named `last_downloaded`.  We model a row as the pair of those two columns
and the table as an association list in insertion order; pandas `.loc`
creates a missing row with all other cells NaN.  Persisting to CSV and
reloading preserves both columns (NaN cells stay missing), so the
write/reload round trip is modelled as the identity on this table.
-/

structure LedgerRow where
  last_downloaded : Option String
  last_download : Option String
deriving DecidableEq

abbrev Ledger := List (String × LedgerRow)

def ledgerLookupRow (led : Ledger) (title : String) : Option LedgerRow :=
  (led.find? (fun e => e.1 = title)).map (fun e => e.2)

/-- The ledger update performed by `download_page`: assign the date text
to the `last_download` cell of the title's row, creating the row if the
title is new. -/
def downloadPageWrite (led : Ledger) (title dateStr : String) : Ledger :=
  match ledgerLookupRow led title with
  | some _ =>
    led.map (fun e =>
      if e.1 = title then (e.1, { e.2 with last_download := some dateStr }) else e)
  | none => led ++ [(title, { last_downloaded := none, last_download := some dateStr })]

/-- The ledger cell `get_projects` actually consults for a title: presence
in the index, and then the `last_downloaded` column. -/
def ledgerReadEntry (led : Ledger) (title : String) : Option (Option String) :=
  (ledgerLookupRow led title).map (fun r => r.last_downloaded)

/-
Fetcher address resolution.  `fetch` first tests
`re.match(r'^http://www.ciel-et-terre.net', target)`; the two dots of the
pattern are regex wildcards, so the test is an anchored
literal-with-wildcards prefix check.  A non-matching target gets a leading
slash added when absent (`re.match('^/', target)`) and is then prefixed
with the site root.
-/

def siteRoot : String := "http://www.ciel-et-terre.net"

/-- The anchored prefix pattern of `fetch`, with `none` at the positions
of the two regex wildcard dots. -/
def sitePat : List (Option Char) :=
  ("http://www".data.map some) ++ [none] ++ ("ciel-et-terre".data.map some)
    ++ [none] ++ ("net".data.map some)

def prefMatch : List (Option Char) → List Char → Bool
  | [], _ => true
  | _ :: _, [] => false
  | p :: ps, c :: cs =>
    (match p with
     | none => true
     | some d => c = d) && prefMatch ps cs

/-- The `re.match('^/', target)` test: does the target start with a
slash. -/
def startsSlash (t : String) : Bool :=
  match t.data with
  | [] => false
  | c :: _ => c = '/'

/-- The address resolution of `fetch`: leave a pattern-matching target
alone, otherwise prefix the site root, inserting a slash only when the
target does not already start with one. -/
def resolveTarget (t : String) : String :=
  if prefMatch sitePat t.data then t
  else siteRoot ++ (if startsSlash t then t else "/" ++ t)

/-- What the claim of a single separating slash would produce: the site
root, one slash, and the target without its leading slashes.  Modelled
from the spec's words for comparison with `resolveTarget`. -/
def claimedResolve (t : String) : String :=
  siteRoot ++ "/" ++ String.mk (t.data.dropWhile (fun c => c = '/'))

/-
Engine lemmas: a capture already recorded survives the rest of a match,
and every group index that is mandatory in a pattern (not under an
alternative or an optional part) is recorded by any successful match.
-/

def mandGroups : RE → List Nat
  | .cat a b => mandGroups a ++ mandGroups b
  | .group i a => i :: mandGroups a
  | _ => []

theorem lookup_isSome_cons {i a : Nat} {v : List Char} {g : Groups}
    (h : (g.lookup i).isSome) : (((a, v) :: g).lookup i).isSome := by
  by_cases hia : i = a
  · subst hia
    simp only [List.lookup, beq_self_eq_true]
    rfl
  · have hb : (i == a) = false := beq_eq_false_iff_ne.mpr hia
    simp only [List.lookup, hb]
    exact h

theorem matchRE_mono (re : RE) : ∀ (s : List Char) (g : Groups) (p : List Char × Groups),
    p ∈ matchRE re s g → ∀ i : Nat, (g.lookup i).isSome → (p.2.lookup i).isSome := by
  induction re with
  | eps =>
    intro s g p hp i h
    simp only [matchRE] at hp
    have := List.mem_singleton.mp hp
    subst this
    exact h
  | lit c =>
    intro s g p hp i h
    cases s with
    | nil => simp only [matchRE] at hp; exact absurd hp (List.not_mem_nil p)
    | cons d r =>
      simp only [matchRE] at hp
      split at hp
      · have := List.mem_singleton.mp hp
        subst this
        exact h
      · exact absurd hp (List.not_mem_nil p)
  | cls k =>
    intro s g p hp i h
    cases s with
    | nil => simp only [matchRE] at hp; exact absurd hp (List.not_mem_nil p)
    | cons d r =>
      simp only [matchRE] at hp
      split at hp
      · have := List.mem_singleton.mp hp
        subst this
        exact h
      · exact absurd hp (List.not_mem_nil p)
  | cat a b iha ihb =>
    intro s g p hp i h
    simp only [matchRE] at hp
    rcases List.mem_flatMap.mp hp with ⟨q, hq, hpq⟩
    exact ihb _ _ _ hpq i (iha _ _ _ hq i h)
  | alt a b iha ihb =>
    intro s g p hp i h
    simp only [matchRE] at hp
    rcases List.mem_append.mp hp with hp | hp
    · exact iha _ _ _ hp i h
    · exact ihb _ _ _ hp i h
  | opt a iha =>
    intro s g p hp i h
    simp only [matchRE] at hp
    rcases List.mem_append.mp hp with hp | hp
    · exact iha _ _ _ hp i h
    · have := List.mem_singleton.mp hp
      subst this
      exact h
  | plus k =>
    intro s g p hp i h
    simp only [matchRE] at hp
    rcases List.mem_map.mp hp with ⟨n, -, heq⟩
    cases heq
    exact h
  | group j a iha =>
    intro s g p hp i h
    simp only [matchRE] at hp
    rcases List.mem_map.mp hp with ⟨q, hq, heq⟩
    cases heq
    exact lookup_isSome_cons (iha _ _ _ hq i h)

theorem matchRE_mand (re : RE) : ∀ (s : List Char) (g : Groups) (p : List Char × Groups),
    p ∈ matchRE re s g → ∀ i ∈ mandGroups re, (p.2.lookup i).isSome := by
  induction re with
  | cat a b iha ihb =>
    intro s g p hp i hi
    simp only [matchRE] at hp
    rcases List.mem_flatMap.mp hp with ⟨q, hq, hpq⟩
    simp only [mandGroups] at hi
    rcases List.mem_append.mp hi with hi | hi
    · exact matchRE_mono b _ _ _ hpq i (iha _ _ _ hq i hi)
    · exact ihb _ _ _ hpq i hi
  | group j a iha =>
    intro s g p hp i hi
    simp only [matchRE] at hp
    rcases List.mem_map.mp hp with ⟨q, hq, heq⟩
    cases heq
    simp only [mandGroups] at hi
    rcases List.mem_cons.mp hi with rfl | hi
    · simp only [List.lookup, beq_self_eq_true]
      rfl
    · exact lookup_isSome_cons (iha _ _ _ hq i hi)
  | eps => intro s g p hp i hi; exact absurd hi (List.not_mem_nil i)
  | lit c => intro s g p hp i hi; exact absurd hi (List.not_mem_nil i)
  | cls k => intro s g p hp i hi; exact absurd hi (List.not_mem_nil i)
  | alt a b iha ihb => intro s g p hp i hi; exact absurd hi (List.not_mem_nil i)
  | opt a iha => intro s g p hp i hi; exact absurd hi (List.not_mem_nil i)
  | plus k => intro s g p hp i hi; exact absurd hi (List.not_mem_nil i)

theorem anchorRE_mand (re : RE) (i : Nat) (hi : i ∈ mandGroups re) (s : List Char)
    (g : Groups) (h : anchorRE re s = some g) : (g.lookup i).isSome := by
  cases hl : matchRE re s [] with
  | nil => simp [anchorRE, hl] at h
  | cons p rest =>
    simp only [anchorRE, hl, List.head?_cons] at h
    have hg : p.2 = g := by simpa using h
    subst hg
    exact matchRE_mand re s [] p (by rw [hl]; exact List.mem_cons_self p rest) i hi

theorem reSearch_mand (re : RE) (i : Nat) (hi : i ∈ mandGroups re) :
    ∀ (s : List Char) (g : Groups), reSearch re s = some g → (g.lookup i).isSome := by
  intro s
  induction s with
  | nil =>
    intro g h
    exact anchorRE_mand re i hi [] g h
  | cons c r ih =>
    intro g h
    cases ha : anchorRE re (c :: r) with
    | some gp =>
      rw [reSearch, ha] at h
      cases h
      exact anchorRE_mand re i hi (c :: r) g ha
    | none =>
      rw [reSearch, ha] at h
      exact ih g h

/-- C8: for every detail-page text, the covered-area and total-area tokens
of the `(<A> out of <B> ha).` pattern are extracted together: one is
present exactly when the other is.  The worked example of the spec is
checked alongside. -/
theorem c8_covers_pair_together :
    (∀ t : String, ((coversPair t).1).isSome ↔ ((coversPair t).2).isSome) ∧
    coversPair "The plant covers about 45 % (3.2 out of 7 ha)." = (some "3.2", some "7") := by
  constructor
  · intro t
    cases h : reSearch areaPat t.data with
    | none => simp [coversPair, h]
    | some g =>
      have h1 := reSearch_mand areaPat 1 (by decide) t.data g h
      have h2 := reSearch_mand areaPat 2 (by decide) t.data g h
      rw [Option.isSome_iff_exists] at h1 h2
      rcases h1 with ⟨v1, hv1⟩
      rcases h2 with ⟨v2, hv2⟩
      simp [coversPair, h, hv1, hv2]
  · decide

/-- C1: the per-project cache decision of `get_projects`: an existing
local file means reuse with no network access, whatever the ledger says; a
missing file with no ledger entry means an unconditional fetch; a missing
file with a ledger entry whose recorded date parses means a fetch exactly
when the elapsed time since that date exceeds 30 days, and otherwise
neither a fetch nor a file. -/
theorem c1_cache_decision (e : Option (Option String)) (now : Int) (s : String)
    (y m : Nat) (h : parseYM s = some (y, m)) :
    cacheDecision true e now = .ok .reuse ∧
    cacheDecision false none now = .ok .fetchNow ∧
    (cacheDecision false (some (some s)) now = .ok .fetchNow ↔
      now - civilSec y m 1 > thirtyDaysSec) ∧
    (¬ now - civilSec y m 1 > thirtyDaysSec →
      cacheDecision false (some (some s)) now = .ok .leaveAbsent) := by
  refine ⟨rfl, rfl, ?_, ?_⟩
  · simp only [cacheDecision, Bool.false_eq_true, if_false, h]
    split
    · simp [*]
    · simp [*]
  · intro hle
    simp only [cacheDecision, Bool.false_eq_true, if_false, h]
    simp [hle]

/-- Witness for C1 at a concrete ledger date and clock. -/
theorem c1_cache_decision_witness :
    parseYM "2019-05" = some (2019, 5) ∧
    (cacheDecision true none (civilSec 2019 7 1) = .ok .reuse ∧
     cacheDecision false none (civilSec 2019 7 1) = .ok .fetchNow ∧
     (cacheDecision false (some (some "2019-05")) (civilSec 2019 7 1) = .ok .fetchNow ↔
       civilSec 2019 7 1 - civilSec 2019 5 1 > thirtyDaysSec) ∧
     (¬ civilSec 2019 7 1 - civilSec 2019 5 1 > thirtyDaysSec →
       cacheDecision false (some (some "2019-05")) (civilSec 2019 7 1) = .ok .leaveAbsent)) :=
  ⟨by decide, c1_cache_decision none (civilSec 2019 7 1) "2019-05" 2019 5 (by decide)⟩

/-- C2: the write-ledger / read-ledger pair does not round-trip.
`download_page` records the date in a column named `last_download`, while
`get_projects` reads the column `last_downloaded`; after a write and
reload the title is in the index but the cell the Cache Manager reads is
empty, so the staleness check crashes instead of suppressing re-download.
Independently, the recorded `YYYY-MM-DD` text would not parse with the
reader's '%Y-%m' format. -/
theorem c2_ledger_round_trip_broken :
    ledgerReadEntry (downloadPageWrite [] "T" "2019-05-14") "T" = some none ∧
    cacheDecision false (ledgerReadEntry (downloadPageWrite [] "T" "2019-05-14") "T") 0 =
      .error () ∧
    parseYM "2019-05-14" = none :=
  ⟨rfl, rfl, by decide⟩

/-- C3: for a text with no match for a field's pattern, the extracted
field is null and no error is raised (the extraction is a total function
into `Option`), while the interconnection-date extraction is fatal on
total non-match (`strptime` receives `None` and raises an uncaught
`TypeError`). -/
theorem c3_no_match_yields_none (f : FieldKey) (t : String)
    (h : reSearch (fieldPat f) t.data = none) (t2 : String)
    (h2 : reSearch datePat t2.data = none) :
    fieldExtract f t = none ∧ parseDateField t2 = .error () := by
  constructor
  · cases f <;> simp_all [fieldExtract, fieldPat, pySearch, coversPair]
  · have hs : pySearch datePat t2 = none := by simp [pySearch, h2]
    simp [parseDateField, hs]

/-- Witness for C3 on the empty text. -/
theorem c3_no_match_yields_none_witness :
    reSearch (fieldPat FieldKey.kWp) "".data = none ∧
    reSearch datePat "".data = none ∧
    (fieldExtract FieldKey.kWp "" = none ∧ parseDateField "" = .error ()) :=
  ⟨by decide, by decide,
    c3_no_match_yields_none FieldKey.kWp "" (by decide) "" (by decide)⟩

/-- C4: `make_decimal` parses present numeric text after normalizing the
comma decimal separator to a period ("3,2" yields 3.2), passes an absent
value through as null, and fails fatally on text `float` cannot parse. -/
theorem c4_make_decimal (s : String) (v : Int × Nat) (hs : ¬ s = "")
    (hp : pyFloat (commaToDot s) = some v) (s2 : String) (hs2 : ¬ s2 = "")
    (hp2 : pyFloat (commaToDot s2) = none) :
    makeDecimal (some s) = .ok (some v) ∧
    makeDecimal none = .ok none ∧
    makeDecimal (some s2) = .error () ∧
    commaToDot "3,2" = "3.2" ∧ pyFloat "3.2" = some (32, 1) ∧
    decVal (32, 1) = (16 / 5 : Rat) := by
  refine ⟨?_, rfl, ?_, by decide, by decide, by norm_num [decVal]⟩
  · simp [makeDecimal, hs, hp]
  · simp [makeDecimal, hs2, hp2]

/-- Witness for C4 at "3,2" and the malformed "x". -/
theorem c4_make_decimal_witness :
    (¬ "3,2" = "") ∧ pyFloat (commaToDot "3,2") = some (32, 1) ∧
    (¬ "x" = "") ∧ pyFloat (commaToDot "x") = none ∧
    (makeDecimal (some "3,2") = .ok (some (32, 1)) ∧
     makeDecimal none = .ok none ∧
     makeDecimal (some "x") = .error () ∧
     commaToDot "3,2" = "3.2" ∧ pyFloat "3.2" = some (32, 1) ∧
     decVal (32, 1) = (16 / 5 : Rat)) :=
  ⟨by decide, by decide, by decide, by decide,
    c4_make_decimal "3,2" (32, 1) (by decide) (by decide) "x" (by decide) (by decide)⟩

/-- C5 (counterexample): on the spec's example text the location
extraction yields "Japan." with the trailing period, not "Japan": the
greedy `[^\n]+` consumes the period and the optional `\.?` matches
nothing. -/
theorem c5_location_claim_false :
    fieldExtract FieldKey.location "installed on a reservoir, located in Japan.\n" ≠
      some "Japan" := by decide

/-- C5 (amended): the example text yields location "Japan." (trailing
period retained) and water-body type "a reservoir". -/
theorem c5_location_amended :
    fieldExtract FieldKey.location "installed on a reservoir, located in Japan.\n" =
      some "Japan." ∧
    fieldExtract FieldKey.waterBodyType "installed on a reservoir, located in Japan.\n" =
      some "a reservoir" := by decide

/-- C6: in the runnable copy both integer coercions are the bare
`lambda s: int(s)`, so an absent capacity is fatal rather than defaulted
to 0; the 0-default for capacity exists only in the package copy (whose
panel-count lambda is a syntax error and cannot run). -/
theorem c6_integer_coercion_asymmetry :
    intCoerceNoFallback none = .error () ∧ kwpCoerceWithDefault none = .ok 0 :=
  ⟨rfl, rfl⟩

/-- C7: the interconnection-date phrase is parsed first as "Month Year"
and falls back to bare "Year": "effective in March 2019" parses to
March 1, 2019 and "effective in 2019" parses to January 1, 2019, the
'%B %Y' attempt having failed on "2019". -/
theorem c7_date_formats :
    parseDateField "effective in March 2019" = .ok ((2019, 3, 1), none) ∧
    parseDateField "effective in 2019" = .ok ((2019, 1, 1), none) ∧
    strptimeBY "March 2019" = some (2019, 3) ∧
    strptimeBY "2019" = none ∧
    strptimeY "2019" = some 2019 :=
  ⟨rfl, rfl, by decide, by decide, by decide⟩

/-- C9 (counterexample): the target "//foo" is not site-absolute, yet its
resolution keeps both slashes, so the result is not the site root plus
exactly one separating slash and the path. -/
theorem c9_resolve_claim_false :
    prefMatch sitePat "//foo".data = false ∧
    resolveTarget "//foo" ≠ claimedResolve "//foo" ∧
    resolveTarget "//foo" = "http://www.ciel-et-terre.net//foo" := by decide

/-- C9 (amended): a target that does not match the site-root prefix
pattern is resolved to the root plus the target, with a slash inserted
only when the target does not already start with one — at least one
separating slash, extra leading slashes preserved. -/
theorem c9_resolve_amended (t : String) (h : prefMatch sitePat t.data = false) :
    resolveTarget t = siteRoot ++ (if startsSlash t then t else "/" ++ t) := by
  simp [resolveTarget, h]

/-- Witness for the amended C9 at the relative path "foo". -/
theorem c9_resolve_amended_witness :
    prefMatch sitePat "foo".data = false ∧
    resolveTarget "foo" = siteRoot ++ (if startsSlash "foo" then "foo" else "/" ++ "foo") :=
  ⟨by decide, c9_resolve_amended "foo" (by decide)⟩

/-- C10: when the concatenated paragraph text of a page is empty,
`parse_page` sets no fields and raises no error — every extractor,
including the interconnection-date extraction that would be fatal on the
empty text, is skipped. -/
theorem c10_empty_text_skips_all (ps : List String) (h : pageText ps = "") :
    parsePage ps = .ok emptyRow ∧ parseDateField "" = .error () := by
  refine ⟨?_, rfl⟩
  simp only [parsePage, h]
  rfl

/-- Witness for C10: a page whose paragraphs are an empty string and a
whitespace-only string. -/
theorem c10_empty_text_skips_all_witness :
    pageText ["", "  "] = "" ∧
    (parsePage ["", "  "] = .ok emptyRow ∧ parseDateField "" = .error ()) :=
  ⟨by decide, c10_empty_text_skips_all ["", "  "] (by decide)⟩
